import Mathlib

/-!
# Shallow embedding of `commands/servers.go`

The seven cobra handlers (`serverList`, `serverInfo`, `startServer`,
`stopServer`, `deleteServer`, `deployServer`, `manageServer`) are embedded as
pure functions from an environment (the API client, the browser launcher, the
flag set) and the positional arguments to a `Run`: the ordered trace of
externally visible effects together with the way the handler ended.
-/

namespace Commands

/-! ## Go values -/

/-- A non-nil Go `error` value, identified by the text of its `Error()` method.
The nil error is `none : Option GoError`. -/
structure GoError where
  msg : String
deriving DecidableEq, Repr

/-- Go `errors.New`. -/
def errorsNew (text : String) : GoError := ⟨text⟩

/-- Modelled from the spec: the Go types of the cost, RAM and storage fields
are declared outside `servers.go`; such a value is carried by the text that
`fmt.Sprintf("%v", v)` produces for it. -/
structure GoValue where
  fmtV : String
deriving DecidableEq, Repr

/-- Go `fmt.Sprintf("%v", v)`. -/
def sprintfV (v : GoValue) : String := v.fmtV

/-- Go `fmt.Sprintf("%vGB", v)`. -/
def sprintfVGB (v : GoValue) : String := v.fmtV ++ "GB"

/-- Go `strconv.Itoa`: base-10 text of an integer. -/
def Itoa (n : Int) : String := toString n

/-- A Go `map[string]α` as an association list. -/
abbrev GoMap (α : Type) := List (String × α)

/-- Go map indexing `m[k]`: the stored value, or the zero value of the element
type when the key is absent (also when the map is nil, i.e. empty). -/
def GoMap.index {α : Type} (m : GoMap α) (zero : α) (k : String) : α :=
  match m.lookup k with
  | some v => v
  | none => zero

/-! ## Data returned by the API client -/

/-- Modelled from the spec: ServerSummary, one element of the list response. -/
structure ServerSummary where
  Id : String
  Name : String
  Location : String
  Status : String
deriving DecidableEq, Repr

/-- Modelled from the spec: the cost breakdown of a server. -/
structure ServerCost where
  Charged : GoValue
  HourOn : GoValue
  MinutesOn : GoValue
  HourOff : GoValue
  MinutesOff : GoValue
deriving DecidableEq, Repr

/-- Modelled from the spec: ServerDetail, with the fields read by `serverInfo`
and `manageServer`. The Go field `Type` is spelled `Type_`. -/
structure ServerDetail where
  Id : String
  Name : String
  Location : String
  Ip : String
  Cost : ServerCost
  CPUModel : String
  GPUCount : Int
  GPUModel : String
  Ram : GoValue
  Status : String
  Storage : GoValue
  StorageClass : String
  Type_ : String
  VCPUs : Int
  Links : GoMap (GoMap String)
deriving DecidableEq, Repr

/-- Modelled from the spec: envelope of `ListServers`. -/
structure ListResult where
  Success : Bool
  Servers : List ServerSummary
deriving DecidableEq, Repr

/-- Modelled from the spec: envelope of `GetServer`. -/
structure GetResult where
  Success : Bool
  Server : ServerDetail
deriving DecidableEq, Repr

/-- Modelled from the spec: envelope of `StartServer`, `StopServer` and
`DeleteServer`; the handlers read only `Success`. -/
structure ActionResult where
  Success : Bool
deriving DecidableEq, Repr

/-- Modelled from the spec: the created server inside the deploy envelope. -/
structure DeployedServer where
  Id : String
deriving DecidableEq, Repr

/-- Modelled from the spec: envelope of `DeployServer`. -/
structure DeployResult where
  Success : Bool
  Server : DeployedServer
deriving DecidableEq, Repr

/-- Modelled from the spec: the `ServerAPIClient` interface behind the
package-level variable `client`; each method answers with an envelope and an
error (nil is `none`). -/
structure Client where
  ListServers : ListResult × Option GoError
  GetServer : String → GetResult × Option GoError
  StartServer : String → ActionResult × Option GoError
  StopServer : String → ActionResult × Option GoError
  DeleteServer : String → ActionResult × Option GoError
  DeployServer : String → String → String → String → Int → Int → Int → Int →
    String → String → String → String → DeployResult × Option GoError

/-- What a handler runs against: the API client and `browser.OpenURL`. -/
structure Env where
  client : Client
  OpenURL : String → Option GoError

/-! ## Effects -/

/-- A request made on the API client, with its arguments in call order. -/
inductive ClientCall
  | ListServers
  | GetServer (id : String)
  | StartServer (id : String)
  | StopServer (id : String)
  | DeleteServer (id : String)
  | DeployServer (adminUser adminPass instanceType gpuModel : String)
      (gpuCount vcpus ram storage : Int)
      (storageClass os location name : String)
deriving DecidableEq, Repr

/-- A row of a go-pretty table. -/
abbrev Row := List String

/-- An externally visible effect of a handler. -/
inductive Event
  | call (c : ClientCall)
  | renderTable (header : List Row) (rows : List Row)
  | println (line : String)
  | openURL (url : String)
deriving DecidableEq, Repr

/-- State of a go-pretty `table.Writer`. -/
structure TableWriter where
  mirrorStdout : Bool
  header : List Row
  rows : List Row
deriving DecidableEq, Repr

/-- Go-pretty `table.NewWriter()`. -/
def TableWriter.NewWriter : TableWriter := ⟨false, [], []⟩

/-- Go-pretty `t.SetOutputMirror(os.Stdout)`. -/
def TableWriter.SetOutputMirror (t : TableWriter) : TableWriter :=
  { t with mirrorStdout := true }

/-- Go-pretty `t.AppendHeader(row)`. -/
def TableWriter.AppendHeader (t : TableWriter) (row : Row) : TableWriter :=
  { t with header := t.header ++ [row] }

/-- Go-pretty `t.AppendRow(row)`. -/
def TableWriter.AppendRow (t : TableWriter) (row : Row) : TableWriter :=
  { t with rows := t.rows ++ [row] }

/-- Go-pretty `t.Render()`: the table goes to the output mirror, if one is set. -/
def TableWriter.Render (t : TableWriter) : List Event :=
  if t.mirrorStdout then [Event.renderTable t.header t.rows] else []

/-- How a handler ended: it returned an error value (nil is `none`), or a Go
run-time panic (index out of range on `args`) unwound it. -/
inductive Outcome
  | returned (err : Option GoError)
  | panicked
deriving DecidableEq, Repr

/-- The run of a handler: effects in order, then the outcome. -/
structure Run where
  trace : List Event
  outcome : Outcome
deriving DecidableEq, Repr

/-- What reached standard output. -/
inductive Output
  | table (header : List Row) (rows : List Row)
  | text (s : String)
deriving DecidableEq, Repr

/-- The standard-output content of one event: a rendered table, or the line of
`fmt.Println` followed by a newline. -/
def Event.stdout : Event → Option Output
  | Event.renderTable h r => some (Output.table h r)
  | Event.println line => some (Output.text (line ++ "\n"))
  | _ => none

/-- Everything a trace wrote to standard output, in order. -/
def stdoutOf (tr : List Event) : List Output := tr.filterMap Event.stdout

/-- The client request of an event, if it is one. -/
def Event.clientCall : Event → Option ClientCall
  | Event.call c => some c
  | _ => none

/-- The client requests of a trace, in order. -/
def clientCalls (tr : List Event) : List ClientCall := tr.filterMap Event.clientCall

/-- The URL handed to the browser launcher by an event, if any. -/
def Event.browserURL : Event → Option String
  | Event.openURL u => some u
  | _ => none

/-- The URLs handed to the browser launcher by a trace, in order. -/
def browserOpens (tr : List Event) : List String := tr.filterMap Event.browserURL

/-! ## Flags (spf13/pflag) -/

/-- Value of a pflag flag: `String` flags hold a string, `Int` flags an int. -/
inductive FlagValue
  | string (s : String)
  | int (n : Int)
deriving DecidableEq, Repr

/-- Name of the pflag type of a value. -/
def FlagValue.typeName : FlagValue → String
  | FlagValue.string _ => "string"
  | FlagValue.int _ => "int"

/-- A registered flag with its current value. -/
structure Flag where
  name : String
  value : FlagValue
deriving DecidableEq, Repr

/-- A pflag `FlagSet`: the registered flags. -/
abbrev FlagSet := List Flag

/-- Pflag `Lookup`. -/
def FlagSet.Lookup (fs : FlagSet) (name : String) : Option Flag :=
  fs.find? (fun f => f.name == name)

/-- Pflag `GetString`: fails when the flag is not defined or is not a string
flag. -/
def FlagSet.GetString (fs : FlagSet) (name : String) : String × Option GoError :=
  match fs.Lookup name with
  | none => ("", some ⟨"flag accessed but not defined: " ++ name⟩)
  | some f =>
    match f.value with
    | FlagValue.string s => (s, none)
    | v => ("", some ⟨"trying to get string value of flag of type " ++ v.typeName⟩)

/-- Pflag `GetInt`: fails when the flag is not defined or is not an int flag. -/
def FlagSet.GetInt (fs : FlagSet) (name : String) : Int × Option GoError :=
  match fs.Lookup name with
  | none => (0, some ⟨"flag accessed but not defined: " ++ name⟩)
  | some f =>
    match f.value with
    | FlagValue.int n => (n, none)
    | v => (0, some ⟨"trying to get int value of flag of type " ++ v.typeName⟩)

/-- One flag under pflag `Set name v`: it takes the value when it is the named
flag and has the type of the value. -/
def Flag.assign (f : Flag) (name : String) (v : FlagValue) : Flag :=
  if f.name == name && f.value.typeName == v.typeName then { f with value := v } else f

/-- Pflag `Set` as done by command-line parsing: the named flag takes the given
value when it is registered with the same type; anything else is left as is. -/
def FlagSet.Set (fs : FlagSet) (name : String) (v : FlagValue) : FlagSet :=
  fs.map (fun f => f.assign name v)

/-- The flags registered on `deployCmd` by `init`, with their defaults. -/
def deployFlags : FlagSet :=
  [ ⟨"gpuModel", FlagValue.string "A40"⟩,
    ⟨"location", FlagValue.string "na-us-las-1"⟩,
    ⟨"instanceType", FlagValue.string "gpu"⟩,
    ⟨"gpuCount", FlagValue.int 1⟩,
    ⟨"vcpus", FlagValue.int 1⟩,
    ⟨"storage", FlagValue.int 20⟩,
    ⟨"storageClass", FlagValue.string "st1"⟩,
    ⟨"ram", FlagValue.int 2⟩,
    ⟨"os", FlagValue.string "Ubuntu 18.04 LTS"⟩ ]

/-- The deploy flags given on a command line; `none` is a flag left out. -/
structure DeployOverrides where
  gpuModel : Option String
  location : Option String
  instanceType : Option String
  gpuCount : Option Int
  vcpus : Option Int
  storage : Option Int
  storageClass : Option String
  ram : Option Int
  os : Option String
deriving DecidableEq, Repr

/-- Set a flag when the command line gives it. -/
def FlagSet.SetOpt (fs : FlagSet) (name : String) (v : Option FlagValue) : FlagSet :=
  match v with
  | some x => fs.Set name x
  | none => fs

/-- The flag set `deployServer` receives from `cmd.Flags()`: the defaults of
`init`, with each flag of the command line set to the supplied value. -/
def parseDeployFlags (o : DeployOverrides) : FlagSet :=
  ((((((((deployFlags.SetOpt "gpuModel" (o.gpuModel.map FlagValue.string)).SetOpt
    "location" (o.location.map FlagValue.string)).SetOpt
    "instanceType" (o.instanceType.map FlagValue.string)).SetOpt
    "gpuCount" (o.gpuCount.map FlagValue.int)).SetOpt
    "vcpus" (o.vcpus.map FlagValue.int)).SetOpt
    "storage" (o.storage.map FlagValue.int)).SetOpt
    "storageClass" (o.storageClass.map FlagValue.string)).SetOpt
    "ram" (o.ram.map FlagValue.int)).SetOpt
    "os" (o.os.map FlagValue.string)

/-- No deploy flag on the command line. -/
def noOverrides : DeployOverrides :=
  ⟨none, none, none, none, none, none, none, none, none⟩

/-! ## The handlers -/

/-- Handler of `servers list`. -/
def serverList (env : Env) (_args : List String) : Run :=
  let (res, err) := env.client.ListServers
  let tr := [Event.call ClientCall.ListServers]
  if err.isSome then
    ⟨tr, Outcome.returned err⟩
  else if !res.Success then
    ⟨tr, Outcome.returned (some (errorsNew "endpoint returned error"))⟩
  else
    let t := TableWriter.NewWriter
    let t := t.SetOutputMirror
    let t := t.AppendHeader ["Id", "Name", "Location", "Status"]
    let t := res.Servers.foldl
      (fun t elem => t.AppendRow [elem.Id, elem.Name, elem.Location, elem.Status]) t
    ⟨tr ++ t.Render, Outcome.returned none⟩

/-- The `props` slice of `serverInfo`: one `map[string]string` per property. -/
def serverInfoProps (s : ServerDetail) : List (GoMap String) :=
  [ [("name", "ID"), ("value", s.Id)],
    [("name", "Name"), ("value", s.Name)],
    [("name", "Location"), ("value", s.Location)],
    [("name", "IP"), ("value", s.Ip)],
    [("name", "Charged Cost"), ("value", sprintfV s.Cost.Charged)],
    [("name", "Hour-On Cost"), ("value", sprintfV s.Cost.HourOn)],
    [("name", "Minutes-On Cost"), ("value", sprintfV s.Cost.MinutesOn)],
    [("name", "Hour-Off Cost"), ("value", sprintfV s.Cost.HourOff)],
    [("name", "Minutes-Off Cost"), ("value", sprintfV s.Cost.MinutesOff)],
    [("name", "CPU Model"), ("value", s.CPUModel)],
    [("name", "GPU Count"), ("value", Itoa s.GPUCount)],
    [("name", "GPU Model"), ("value", s.GPUModel)],
    [("name", "RAM"), ("value", sprintfVGB s.Ram)],
    [("name", "Status"), ("value", s.Status)],
    [("name", "Storage"), ("value", sprintfVGB s.Storage)],
    [("name", "Storage Class"), ("value", s.StorageClass)],
    [("name", "Type"), ("value", s.Type_)],
    [("name", "vCPUs"), ("value", Itoa s.VCPUs)] ]

/-- Handler of `servers info server_id`. -/
def serverInfo (env : Env) (args : List String) : Run :=
  match args with
  | [] => ⟨[], Outcome.panicked⟩
  | server :: _ =>
    let (res, err) := env.client.GetServer server
    let tr := [Event.call (ClientCall.GetServer server)]
    if err.isSome then
      ⟨tr, Outcome.returned err⟩
    else if !res.Success then
      ⟨tr, Outcome.returned (some (errorsNew "endpoint returned error"))⟩
    else
      let props := serverInfoProps res.Server
      let t := TableWriter.NewWriter
      let t := t.SetOutputMirror
      let t := t.AppendHeader ["Property", "Value"]
      let t := props.foldl
        (fun t elem => t.AppendRow [elem.index "" "name", elem.index "" "value"]) t
      ⟨tr ++ t.Render, Outcome.returned none⟩

/-- Handler of `servers start server_id`. -/
def startServer (env : Env) (args : List String) : Run :=
  match args with
  | [] => ⟨[], Outcome.panicked⟩
  | server :: _ =>
    let (res, err) := env.client.StartServer server
    let tr := [Event.call (ClientCall.StartServer server)]
    if err.isSome then
      ⟨tr, Outcome.returned err⟩
    else if !res.Success then
      ⟨tr, Outcome.returned err⟩
    else
      ⟨tr, Outcome.returned none⟩

/-- Handler of `servers stop server_id`. -/
def stopServer (env : Env) (args : List String) : Run :=
  match args with
  | [] => ⟨[], Outcome.panicked⟩
  | server :: _ =>
    let (res, err) := env.client.StopServer server
    let tr := [Event.call (ClientCall.StopServer server)]
    if err.isSome then
      ⟨tr, Outcome.returned err⟩
    else if !res.Success then
      ⟨tr, Outcome.returned err⟩
    else
      ⟨tr, Outcome.returned none⟩

/-- Handler of `servers delete server_id`. -/
def deleteServer (env : Env) (args : List String) : Run :=
  match args with
  | [] => ⟨[], Outcome.panicked⟩
  | server :: _ =>
    let (res, err) := env.client.DeleteServer server
    let tr := [Event.call (ClientCall.DeleteServer server)]
    if err.isSome then
      ⟨tr, Outcome.returned err⟩
    else if !res.Success then
      ⟨tr, Outcome.returned err⟩
    else
      ⟨tr, Outcome.returned none⟩

/-- The part of `deployServer` after the flags are read: the positional
arguments, the client call, and the printing of the new id. -/
def deployCall (env : Env) (args : List String)
    (instanceType gpuModel : String) (gpuCount vcpus ram storage : Int)
    (storageClass os location : String) : Run :=
  match args with
  | name :: adminUser :: adminPass :: _ =>
    let (res, err) := env.client.DeployServer adminUser adminPass instanceType gpuModel
      gpuCount vcpus ram storage storageClass os location name
    let tr := [Event.call (ClientCall.DeployServer adminUser adminPass instanceType
      gpuModel gpuCount vcpus ram storage storageClass os location name)]
    if err.isSome then
      ⟨tr, Outcome.returned err⟩
    else if !res.Success then
      ⟨tr, Outcome.returned err⟩
    else
      ⟨tr ++ [Event.println res.Server.Id], Outcome.returned none⟩
  | _ => ⟨[], Outcome.panicked⟩

/-- Handler of `servers deploy name admin_user admin_pass`; `flags` is
`cmd.Flags()`. -/
def deployServer (env : Env) (flags : FlagSet) (args : List String) : Run :=
  let (instanceType, err) := flags.GetString "instanceType"
  if err.isSome then ⟨[], Outcome.returned err⟩ else
  let (gpuModel, err) := flags.GetString "gpuModel"
  if err.isSome then ⟨[], Outcome.returned err⟩ else
  let (gpuCount, err) := flags.GetInt "gpuCount"
  if err.isSome then ⟨[], Outcome.returned err⟩ else
  let (vcpus, err) := flags.GetInt "vcpus"
  if err.isSome then ⟨[], Outcome.returned err⟩ else
  let (ram, err) := flags.GetInt "ram"
  if err.isSome then ⟨[], Outcome.returned err⟩ else
  let (storage, err) := flags.GetInt "storage"
  if err.isSome then ⟨[], Outcome.returned err⟩ else
  let (storageClass, err) := flags.GetString "storageClass"
  if err.isSome then ⟨[], Outcome.returned err⟩ else
  let (os, err) := flags.GetString "os"
  if err.isSome then ⟨[], Outcome.returned err⟩ else
  let (location, err) := flags.GetString "location"
  if err.isSome then ⟨[], Outcome.returned err⟩ else
  deployCall env args instanceType gpuModel gpuCount vcpus ram storage storageClass os
    location

/-- Handler of `servers manage server_id`. -/
def manageServer (env : Env) (args : List String) : Run :=
  match args with
  | [] => ⟨[], Outcome.panicked⟩
  | server :: _ =>
    let (res, err) := env.client.GetServer server
    let tr := [Event.call (ClientCall.GetServer server)]
    if err.isSome then
      ⟨tr, Outcome.returned err⟩
    else if !res.Success then
      ⟨tr, Outcome.returned err⟩
    else
      let url := (res.Server.Links.index [] "dashboard").index "" "href"
      let err := env.OpenURL url
      let tr := tr ++ [Event.openURL url]
      if err.isSome then
        ⟨tr, Outcome.returned err⟩
      else
        ⟨tr, Outcome.returned none⟩

/-- Whether a handler ended by returning a non-nil error. -/
def Outcome.returnsError : Outcome → Bool
  | Outcome.returned (some _) => true
  | _ => false

/-! ## Sample inputs -/

/-- An error as the client returns on a network failure. -/
def netErr : GoError := ⟨"dial tcp: connection refused"⟩

/-- An error as the browser launcher returns when it cannot start. -/
def launchErr : GoError := ⟨"exec: xdg-open: executable file not found"⟩

/-- A server whose link map has no "dashboard" key. -/
def plainServer : ServerDetail :=
  { Id := "srv-1", Name := "gpu-box", Location := "na-us-las-1", Ip := "10.0.0.7",
    Cost := ⟨⟨"0.12"⟩, ⟨"0.5"⟩, ⟨"0.01"⟩, ⟨"0.1"⟩, ⟨"0.002"⟩⟩,
    CPUModel := "Xeon", GPUCount := 1, GPUModel := "A40", Ram := ⟨"2"⟩,
    Status := "running", Storage := ⟨"20"⟩, StorageClass := "st1", Type_ := "gpu",
    VCPUs := 1, Links := [] }

/-- The same server with a dashboard link. -/
def linkedServer : ServerDetail :=
  { plainServer with
    Links := [("dashboard", [("href", "https://console.example/srv-1")])] }

/-- A server whose "dashboard" entry has no "href". -/
def hreflessServer : ServerDetail :=
  { plainServer with Links := [("dashboard", [("rel", "panel")])] }

/-- Two list entries. -/
def sampleServers : List ServerSummary :=
  [⟨"srv-2", "beta", "eu-1", "stopped"⟩, ⟨"srv-1", "alpha", "na-us-las-1", "running"⟩]

/-- A client that answers every request with the same success flag and error,
about the given server. -/
def constClient (s : ServerDetail) (ok : Bool) (err : Option GoError) : Client :=
  { ListServers := (⟨ok, sampleServers⟩, err),
    GetServer := fun _ => (⟨ok, s⟩, err),
    StartServer := fun _ => (⟨ok⟩, err),
    StopServer := fun _ => (⟨ok⟩, err),
    DeleteServer := fun _ => (⟨ok⟩, err),
    DeployServer := fun _ _ _ _ _ _ _ _ _ _ _ _ => (⟨ok, ⟨s.Id⟩⟩, err) }

/-- An environment over `constClient` whose browser launcher answers
`launch`. -/
def constEnv (s : ServerDetail) (ok : Bool) (err launch : Option GoError) : Env :=
  { client := constClient s ok err, OpenURL := fun _ => launch }

/-- Only `--gpuCount=4` on the command line. -/
def gpuCount4 : DeployOverrides := { noOverrides with gpuCount := some 4 }

/-- The flags `--ram=8 --vcpus=2` on the command line. -/
def ram8vcpus2 : DeployOverrides := { noOverrides with ram := some 8, vcpus := some 2 }

/-! ## Flag lookups -/

theorem assign_name (f : Flag) (n : String) (v : FlagValue) :
    (f.assign n v).name = f.name := by
  unfold Flag.assign
  split <;> rfl

theorem assign_ne (f : Flag) (n : String) (v : FlagValue) (h : f.name ≠ n) :
    f.assign n v = f := by
  simp [Flag.assign, h]

theorem Lookup_Set_ne (fs : FlagSet) (n m : String) (v : FlagValue) (h : n ≠ m) :
    (fs.Set n v).Lookup m = fs.Lookup m := by
  induction fs with
  | nil => rfl
  | cons f fs ih =>
    simp only [FlagSet.Set, FlagSet.Lookup, List.map_cons, List.find?_cons,
      assign_name] at ih ⊢
    by_cases hm : f.name = m
    · have hn : f.name ≠ n := fun e => h (e.symm.trans hm)
      have hb : (f.name == m) = true := by simpa using hm
      rw [assign_ne f n v hn, hb]
    · have hb : (f.name == m) = false := by simpa using hm
      rw [hb]
      exact ih

theorem Lookup_Set_eq (fs : FlagSet) (n : String) (v : FlagValue) :
    (fs.Set n v).Lookup n = (fs.Lookup n).map (fun f => f.assign n v) := by
  induction fs with
  | nil => rfl
  | cons f fs ih =>
    simp only [FlagSet.Set, FlagSet.Lookup, List.map_cons, List.find?_cons,
      assign_name] at ih ⊢
    by_cases hn : f.name = n
    · have hb : (f.name == n) = true := by simpa using hn
      rw [hb]
      rfl
    · have hb : (f.name == n) = false := by simpa using hn
      rw [hb]
      exact ih

theorem Lookup_SetOpt_ne (fs : FlagSet) (n m : String) (v : Option FlagValue)
    (h : n ≠ m) : (fs.SetOpt n v).Lookup m = fs.Lookup m := by
  cases v with
  | none => rfl
  | some x => exact Lookup_Set_ne fs n m x h

theorem GetString_SetOpt_ne (fs : FlagSet) (n m : String) (v : Option FlagValue)
    (h : n ≠ m) : (fs.SetOpt n v).GetString m = fs.GetString m := by
  simp only [FlagSet.GetString, Lookup_SetOpt_ne fs n m v h]

theorem GetInt_SetOpt_ne (fs : FlagSet) (n m : String) (v : Option FlagValue)
    (h : n ≠ m) : (fs.SetOpt n v).GetInt m = fs.GetInt m := by
  simp only [FlagSet.GetInt, Lookup_SetOpt_ne fs n m v h]

theorem GetString_SetOpt_eq (fs : FlagSet) (n d : String) (v : Option String)
    (h : fs.Lookup n = some ⟨n, FlagValue.string d⟩) :
    (fs.SetOpt n (v.map FlagValue.string)).GetString n = (v.getD d, none) ∧
    (fs.SetOpt n (v.map FlagValue.string)).Lookup n
      = some ⟨n, FlagValue.string (v.getD d)⟩ := by
  cases v with
  | none => simp [FlagSet.SetOpt, FlagSet.GetString, h]
  | some x =>
    simp [FlagSet.SetOpt, FlagSet.GetString, Lookup_Set_eq, h, Flag.assign,
      FlagValue.typeName]

theorem GetInt_SetOpt_eq (fs : FlagSet) (n : String) (d : Int) (v : Option Int)
    (h : fs.Lookup n = some ⟨n, FlagValue.int d⟩) :
    (fs.SetOpt n (v.map FlagValue.int)).GetInt n = (v.getD d, none) ∧
    (fs.SetOpt n (v.map FlagValue.int)).Lookup n
      = some ⟨n, FlagValue.int (v.getD d)⟩ := by
  cases v with
  | none => simp [FlagSet.SetOpt, FlagSet.GetInt, h]
  | some x =>
    simp [FlagSet.SetOpt, FlagSet.GetInt, Lookup_Set_eq, h, Flag.assign,
      FlagValue.typeName]

theorem parse_gpuModel (o : DeployOverrides) :
    (parseDeployFlags o).GetString "gpuModel" = (o.gpuModel.getD "A40", none) := by
  unfold parseDeployFlags
  rw [GetString_SetOpt_ne, GetString_SetOpt_ne, GetString_SetOpt_ne, GetString_SetOpt_ne, GetString_SetOpt_ne, GetString_SetOpt_ne, GetString_SetOpt_ne, GetString_SetOpt_ne]
  · refine (GetString_SetOpt_eq _ _ "A40" _ ?_).1
    rfl
  all_goals decide

theorem parse_location (o : DeployOverrides) :
    (parseDeployFlags o).GetString "location" = (o.location.getD "na-us-las-1", none) := by
  unfold parseDeployFlags
  rw [GetString_SetOpt_ne, GetString_SetOpt_ne, GetString_SetOpt_ne, GetString_SetOpt_ne, GetString_SetOpt_ne, GetString_SetOpt_ne, GetString_SetOpt_ne]
  · refine (GetString_SetOpt_eq _ _ "na-us-las-1" _ ?_).1
    rw [Lookup_SetOpt_ne]
    · rfl
    all_goals decide
  all_goals decide

theorem parse_instanceType (o : DeployOverrides) :
    (parseDeployFlags o).GetString "instanceType" = (o.instanceType.getD "gpu", none) := by
  unfold parseDeployFlags
  rw [GetString_SetOpt_ne, GetString_SetOpt_ne, GetString_SetOpt_ne, GetString_SetOpt_ne, GetString_SetOpt_ne, GetString_SetOpt_ne]
  · refine (GetString_SetOpt_eq _ _ "gpu" _ ?_).1
    rw [Lookup_SetOpt_ne, Lookup_SetOpt_ne]
    · rfl
    all_goals decide
  all_goals decide

theorem parse_gpuCount (o : DeployOverrides) :
    (parseDeployFlags o).GetInt "gpuCount" = (o.gpuCount.getD 1, none) := by
  unfold parseDeployFlags
  rw [GetInt_SetOpt_ne, GetInt_SetOpt_ne, GetInt_SetOpt_ne, GetInt_SetOpt_ne, GetInt_SetOpt_ne]
  · refine (GetInt_SetOpt_eq _ _ 1 _ ?_).1
    rw [Lookup_SetOpt_ne, Lookup_SetOpt_ne, Lookup_SetOpt_ne]
    · rfl
    all_goals decide
  all_goals decide

theorem parse_vcpus (o : DeployOverrides) :
    (parseDeployFlags o).GetInt "vcpus" = (o.vcpus.getD 1, none) := by
  unfold parseDeployFlags
  rw [GetInt_SetOpt_ne, GetInt_SetOpt_ne, GetInt_SetOpt_ne, GetInt_SetOpt_ne]
  · refine (GetInt_SetOpt_eq _ _ 1 _ ?_).1
    rw [Lookup_SetOpt_ne, Lookup_SetOpt_ne, Lookup_SetOpt_ne, Lookup_SetOpt_ne]
    · rfl
    all_goals decide
  all_goals decide

theorem parse_storage (o : DeployOverrides) :
    (parseDeployFlags o).GetInt "storage" = (o.storage.getD 20, none) := by
  unfold parseDeployFlags
  rw [GetInt_SetOpt_ne, GetInt_SetOpt_ne, GetInt_SetOpt_ne]
  · refine (GetInt_SetOpt_eq _ _ 20 _ ?_).1
    rw [Lookup_SetOpt_ne, Lookup_SetOpt_ne, Lookup_SetOpt_ne, Lookup_SetOpt_ne, Lookup_SetOpt_ne]
    · rfl
    all_goals decide
  all_goals decide

theorem parse_storageClass (o : DeployOverrides) :
    (parseDeployFlags o).GetString "storageClass" = (o.storageClass.getD "st1", none) := by
  unfold parseDeployFlags
  rw [GetString_SetOpt_ne, GetString_SetOpt_ne]
  · refine (GetString_SetOpt_eq _ _ "st1" _ ?_).1
    rw [Lookup_SetOpt_ne, Lookup_SetOpt_ne, Lookup_SetOpt_ne, Lookup_SetOpt_ne, Lookup_SetOpt_ne, Lookup_SetOpt_ne]
    · rfl
    all_goals decide
  all_goals decide

theorem parse_ram (o : DeployOverrides) :
    (parseDeployFlags o).GetInt "ram" = (o.ram.getD 2, none) := by
  unfold parseDeployFlags
  rw [GetInt_SetOpt_ne]
  · refine (GetInt_SetOpt_eq _ _ 2 _ ?_).1
    rw [Lookup_SetOpt_ne, Lookup_SetOpt_ne, Lookup_SetOpt_ne, Lookup_SetOpt_ne, Lookup_SetOpt_ne, Lookup_SetOpt_ne, Lookup_SetOpt_ne]
    · rfl
    all_goals decide
  all_goals decide

theorem parse_os (o : DeployOverrides) :
    (parseDeployFlags o).GetString "os" = (o.os.getD "Ubuntu 18.04 LTS", none) := by
  unfold parseDeployFlags
  refine (GetString_SetOpt_eq _ _ "Ubuntu 18.04 LTS" _ ?_).1
  rw [Lookup_SetOpt_ne, Lookup_SetOpt_ne, Lookup_SetOpt_ne, Lookup_SetOpt_ne, Lookup_SetOpt_ne, Lookup_SetOpt_ne, Lookup_SetOpt_ne, Lookup_SetOpt_ne]
  · rfl
  all_goals decide

/-- With the flags of `init` and a parsed command line every getter succeeds,
so `deployServer` reaches the client call with the parsed values. -/
theorem deployServer_parse (env : Env) (o : DeployOverrides) (args : List String) :
    deployServer env (parseDeployFlags o) args
      = deployCall env args (o.instanceType.getD "gpu") (o.gpuModel.getD "A40")
          (o.gpuCount.getD 1) (o.vcpus.getD 1) (o.ram.getD 2) (o.storage.getD 20)
          (o.storageClass.getD "st1") (o.os.getD "Ubuntu 18.04 LTS")
          (o.location.getD "na-us-las-1") := by
  simp [deployServer, parse_instanceType, parse_gpuModel, parse_gpuCount, parse_vcpus,
    parse_ram, parse_storage, parse_storageClass, parse_os, parse_location]

/-! ## Runs of the handlers in closed form -/

theorem foldl_AppendRow {α : Type} (f : α → Row) (l : List α) (t : TableWriter) :
    l.foldl (fun t e => t.AppendRow (f e)) t = { t with rows := t.rows ++ l.map f } := by
  induction l generalizing t with
  | nil => simp
  | cons a l ih =>
    rw [List.foldl_cons, ih]
    simp [TableWriter.AppendRow]

theorem serverList_run (env : Env) (args : List String) :
    serverList env args =
      if env.client.ListServers.2.isSome then
        ⟨[Event.call ClientCall.ListServers], Outcome.returned env.client.ListServers.2⟩
      else if env.client.ListServers.1.Success = false then
        ⟨[Event.call ClientCall.ListServers],
          Outcome.returned (some ⟨"endpoint returned error"⟩)⟩
      else
        ⟨[Event.call ClientCall.ListServers,
          Event.renderTable [["Id", "Name", "Location", "Status"]]
            (env.client.ListServers.1.Servers.map
              (fun s => [s.Id, s.Name, s.Location, s.Status]))],
          Outcome.returned none⟩ := by
  rcases h : env.client.ListServers with ⟨res, err⟩
  simp only [serverList, h, foldl_AppendRow]
  split
  · rfl
  · split
    · simp_all [errorsNew]
    · simp_all [TableWriter.Render, TableWriter.NewWriter, TableWriter.SetOutputMirror,
        TableWriter.AppendHeader]

theorem serverInfo_run (env : Env) (server : String) (rest : List String) :
    serverInfo env (server :: rest) =
      if (env.client.GetServer server).2.isSome then
        ⟨[Event.call (ClientCall.GetServer server)],
          Outcome.returned (env.client.GetServer server).2⟩
      else if (env.client.GetServer server).1.Success = false then
        ⟨[Event.call (ClientCall.GetServer server)],
          Outcome.returned (some ⟨"endpoint returned error"⟩)⟩
      else
        ⟨[Event.call (ClientCall.GetServer server),
          Event.renderTable [["Property", "Value"]]
            ((serverInfoProps (env.client.GetServer server).1.Server).map
              (fun elem => [elem.index "" "name", elem.index "" "value"]))],
          Outcome.returned none⟩ := by
  rcases h : env.client.GetServer server with ⟨res, err⟩
  simp only [serverInfo, h, foldl_AppendRow]
  split
  · rfl
  · split
    · simp_all [errorsNew]
    · simp_all [TableWriter.Render, TableWriter.NewWriter, TableWriter.SetOutputMirror,
        TableWriter.AppendHeader]

theorem startServer_run (env : Env) (server : String) (rest : List String) :
    startServer env (server :: rest) =
      ⟨[Event.call (ClientCall.StartServer server)],
        Outcome.returned (if (env.client.StartServer server).2.isSome
          then (env.client.StartServer server).2 else none)⟩ := by
  rcases h : env.client.StartServer server with ⟨res, err⟩
  simp only [startServer, h]
  cases err <;> cases res.Success <;> simp

theorem stopServer_run (env : Env) (server : String) (rest : List String) :
    stopServer env (server :: rest) =
      ⟨[Event.call (ClientCall.StopServer server)],
        Outcome.returned (if (env.client.StopServer server).2.isSome
          then (env.client.StopServer server).2 else none)⟩ := by
  rcases h : env.client.StopServer server with ⟨res, err⟩
  simp only [stopServer, h]
  cases err <;> cases res.Success <;> simp

theorem deleteServer_run (env : Env) (server : String) (rest : List String) :
    deleteServer env (server :: rest) =
      ⟨[Event.call (ClientCall.DeleteServer server)],
        Outcome.returned (if (env.client.DeleteServer server).2.isSome
          then (env.client.DeleteServer server).2 else none)⟩ := by
  rcases h : env.client.DeleteServer server with ⟨res, err⟩
  simp only [deleteServer, h]
  cases err <;> cases res.Success <;> simp

theorem deployCall_run (env : Env) (name adminUser adminPass : String) (rest : List String)
    (instanceType gpuModel : String) (gpuCount vcpus ram storage : Int)
    (storageClass os location : String) :
    deployCall env (name :: adminUser :: adminPass :: rest) instanceType gpuModel gpuCount
        vcpus ram storage storageClass os location =
      ⟨Event.call (ClientCall.DeployServer adminUser adminPass instanceType gpuModel gpuCount
          vcpus ram storage storageClass os location name) ::
        (if (env.client.DeployServer adminUser adminPass instanceType gpuModel gpuCount
              vcpus ram storage storageClass os location name).2 = none ∧
            (env.client.DeployServer adminUser adminPass instanceType gpuModel gpuCount
              vcpus ram storage storageClass os location name).1.Success = true
          then [Event.println (env.client.DeployServer adminUser adminPass instanceType
            gpuModel gpuCount vcpus ram storage storageClass os location name).1.Server.Id]
          else []),
        Outcome.returned (env.client.DeployServer adminUser adminPass instanceType gpuModel
          gpuCount vcpus ram storage storageClass os location name).2⟩ := by
  rcases h : env.client.DeployServer adminUser adminPass instanceType gpuModel gpuCount
    vcpus ram storage storageClass os location name with ⟨res, err⟩
  simp only [deployCall, h]
  cases err <;> cases res.Success <;> simp

theorem manageServer_run (env : Env) (server : String) (rest : List String) :
    manageServer env (server :: rest) =
      if (env.client.GetServer server).2.isSome then
        ⟨[Event.call (ClientCall.GetServer server)],
          Outcome.returned (env.client.GetServer server).2⟩
      else if (env.client.GetServer server).1.Success = false then
        ⟨[Event.call (ClientCall.GetServer server)], Outcome.returned none⟩
      else
        ⟨[Event.call (ClientCall.GetServer server),
          Event.openURL (((env.client.GetServer server).1.Server.Links.index []
            "dashboard").index "" "href")],
          Outcome.returned (env.OpenURL (((env.client.GetServer server).1.Server.Links.index []
            "dashboard").index "" "href"))⟩ := by
  rcases h : env.client.GetServer server with ⟨res, err⟩
  simp only [manageServer, h]
  cases err <;> cases res.Success <;> simp
  intro hu
  exact hu.symm

/-! ## The claims -/

/-- C1: in `serverList` and `serverInfo`, a response with a nil error and
success=false makes the handler return the error "endpoint returned error", and
nothing (no table) is written to standard output. -/
theorem list_info_success_false (env : Env) (args : List String) (server : String)
    (rest : List String) :
    (env.client.ListServers.2 = none → env.client.ListServers.1.Success = false →
      (serverList env args).outcome
          = Outcome.returned (some ⟨"endpoint returned error"⟩) ∧
        stdoutOf (serverList env args).trace = []) ∧
    ((env.client.GetServer server).2 = none →
      (env.client.GetServer server).1.Success = false →
      (serverInfo env (server :: rest)).outcome
          = Outcome.returned (some ⟨"endpoint returned error"⟩) ∧
        stdoutOf (serverInfo env (server :: rest)).trace = []) := by
  constructor
  · intro h1 h2
    rw [serverList_run]
    simp [h1, h2, errorsNew, stdoutOf, Event.stdout]
  · intro h1 h2
    rw [serverInfo_run]
    simp [h1, h2, errorsNew, stdoutOf, Event.stdout]

theorem list_info_success_false_witness :
    ((serverList (constEnv plainServer false none none) []).outcome
        = Outcome.returned (some ⟨"endpoint returned error"⟩) ∧
      stdoutOf (serverList (constEnv plainServer false none none) []).trace = []) ∧
    ((serverInfo (constEnv plainServer false none none) ["srv-1"]).outcome
        = Outcome.returned (some ⟨"endpoint returned error"⟩) ∧
      stdoutOf (serverInfo (constEnv plainServer false none none) ["srv-1"]).trace = []) :=
  ⟨(list_info_success_false (constEnv plainServer false none none) [] "srv-1" []).1 rfl rfl,
   (list_info_success_false (constEnv plainServer false none none) [] "srv-1" []).2 rfl rfl⟩

/-- C2: in `startServer`, `stopServer`, `deleteServer`, `deployServer` and
`manageServer`, a response with a nil error and success=false makes the handler
return a nil error. -/
theorem mutating_success_false_nil (env : Env) (server : String) (rest : List String)
    (o : DeployOverrides) (name adminUser adminPass : String) :
    ((env.client.StartServer server).2 = none →
      (env.client.StartServer server).1.Success = false →
      (startServer env (server :: rest)).outcome = Outcome.returned none) ∧
    ((env.client.StopServer server).2 = none →
      (env.client.StopServer server).1.Success = false →
      (stopServer env (server :: rest)).outcome = Outcome.returned none) ∧
    ((env.client.DeleteServer server).2 = none →
      (env.client.DeleteServer server).1.Success = false →
      (deleteServer env (server :: rest)).outcome = Outcome.returned none) ∧
    ((env.client.DeployServer adminUser adminPass (o.instanceType.getD "gpu")
        (o.gpuModel.getD "A40") (o.gpuCount.getD 1) (o.vcpus.getD 1) (o.ram.getD 2)
        (o.storage.getD 20) (o.storageClass.getD "st1") (o.os.getD "Ubuntu 18.04 LTS")
        (o.location.getD "na-us-las-1") name).2 = none →
      (env.client.DeployServer adminUser adminPass (o.instanceType.getD "gpu")
        (o.gpuModel.getD "A40") (o.gpuCount.getD 1) (o.vcpus.getD 1) (o.ram.getD 2)
        (o.storage.getD 20) (o.storageClass.getD "st1") (o.os.getD "Ubuntu 18.04 LTS")
        (o.location.getD "na-us-las-1") name).1.Success = false →
      (deployServer env (parseDeployFlags o) [name, adminUser, adminPass]).outcome
        = Outcome.returned none) ∧
    ((env.client.GetServer server).2 = none →
      (env.client.GetServer server).1.Success = false →
      (manageServer env (server :: rest)).outcome = Outcome.returned none) := by
  refine ⟨?_, ?_, ?_, ?_, ?_⟩
  · intro h1 _
    rw [startServer_run]
    simp [h1]
  · intro h1 _
    rw [stopServer_run]
    simp [h1]
  · intro h1 _
    rw [deleteServer_run]
    simp [h1]
  · intro h1 _
    rw [deployServer_parse, deployCall_run]
    simp [h1]
  · intro h1 h2
    rw [manageServer_run]
    simp [h1, h2]

theorem mutating_success_false_nil_witness :
    (startServer (constEnv linkedServer false none none) ["srv-1"]).outcome
        = Outcome.returned none ∧
    (stopServer (constEnv linkedServer false none none) ["srv-1"]).outcome
        = Outcome.returned none ∧
    (deleteServer (constEnv linkedServer false none none) ["srv-1"]).outcome
        = Outcome.returned none ∧
    (deployServer (constEnv linkedServer false none none) (parseDeployFlags ram8vcpus2)
        ["gpu-box", "admin", "secret"]).outcome = Outcome.returned none ∧
    (manageServer (constEnv linkedServer false none none) ["srv-1"]).outcome
        = Outcome.returned none :=
  have h := mutating_success_false_nil (constEnv linkedServer false none none) "srv-1" []
    ram8vcpus2 "gpu-box" "admin" "secret"
  ⟨h.1 rfl rfl, h.2.1 rfl rfl, h.2.2.1 rfl rfl, h.2.2.2.1 rfl rfl, h.2.2.2.2 rfl rfl⟩

/-- C3: in each of the seven handlers, a non-nil error `e` from the client call
is returned as it is, and the run has no output effect: nothing is written to
standard output (no table, no server id) and the browser is not opened. -/
theorem client_error_propagates (env : Env) (e : GoError) (args : List String)
    (server : String) (rest : List String) (o : DeployOverrides)
    (name adminUser adminPass : String) :
    (env.client.ListServers.2 = some e →
      ((serverList env args).outcome = Outcome.returned (some e) ∧
        stdoutOf (serverList env args).trace = [] ∧
        browserOpens (serverList env args).trace = [])) ∧
    ((env.client.GetServer server).2 = some e →
      ((serverInfo env (server :: rest)).outcome = Outcome.returned (some e) ∧
        stdoutOf (serverInfo env (server :: rest)).trace = [] ∧
        browserOpens (serverInfo env (server :: rest)).trace = [])) ∧
    ((env.client.StartServer server).2 = some e →
      ((startServer env (server :: rest)).outcome = Outcome.returned (some e) ∧
        stdoutOf (startServer env (server :: rest)).trace = [] ∧
        browserOpens (startServer env (server :: rest)).trace = [])) ∧
    ((env.client.StopServer server).2 = some e →
      ((stopServer env (server :: rest)).outcome = Outcome.returned (some e) ∧
        stdoutOf (stopServer env (server :: rest)).trace = [] ∧
        browserOpens (stopServer env (server :: rest)).trace = [])) ∧
    ((env.client.DeleteServer server).2 = some e →
      ((deleteServer env (server :: rest)).outcome = Outcome.returned (some e) ∧
        stdoutOf (deleteServer env (server :: rest)).trace = [] ∧
        browserOpens (deleteServer env (server :: rest)).trace = [])) ∧
    ((env.client.DeployServer adminUser adminPass (o.instanceType.getD "gpu")
        (o.gpuModel.getD "A40") (o.gpuCount.getD 1) (o.vcpus.getD 1) (o.ram.getD 2)
        (o.storage.getD 20) (o.storageClass.getD "st1") (o.os.getD "Ubuntu 18.04 LTS")
        (o.location.getD "na-us-las-1") name).2 = some e →
      ((deployServer env (parseDeployFlags o) [name, adminUser, adminPass]).outcome = Outcome.returned (some e) ∧
        stdoutOf (deployServer env (parseDeployFlags o) [name, adminUser, adminPass]).trace = [] ∧
        browserOpens (deployServer env (parseDeployFlags o) [name, adminUser, adminPass]).trace = [])) ∧
    ((env.client.GetServer server).2 = some e →
      ((manageServer env (server :: rest)).outcome = Outcome.returned (some e) ∧
        stdoutOf (manageServer env (server :: rest)).trace = [] ∧
        browserOpens (manageServer env (server :: rest)).trace = [])) := by
  refine ⟨?_, ?_, ?_, ?_, ?_, ?_, ?_⟩
  · intro h
    rw [serverList_run]
    simp [h, stdoutOf, browserOpens, Event.stdout, Event.browserURL]
  · intro h
    rw [serverInfo_run]
    simp [h, stdoutOf, browserOpens, Event.stdout, Event.browserURL]
  · intro h
    rw [startServer_run]
    simp [h, stdoutOf, browserOpens, Event.stdout, Event.browserURL]
  · intro h
    rw [stopServer_run]
    simp [h, stdoutOf, browserOpens, Event.stdout, Event.browserURL]
  · intro h
    rw [deleteServer_run]
    simp [h, stdoutOf, browserOpens, Event.stdout, Event.browserURL]
  · intro h
    rw [deployServer_parse, deployCall_run]
    simp [h, stdoutOf, browserOpens, Event.stdout, Event.browserURL]
  · intro h
    rw [manageServer_run]
    simp [h, stdoutOf, browserOpens, Event.stdout, Event.browserURL]

theorem client_error_propagates_witness :
    ((serverList (constEnv linkedServer true (some netErr) none) []).outcome
        = Outcome.returned (some netErr) ∧
      stdoutOf (serverList (constEnv linkedServer true (some netErr) none) []).trace = [] ∧
      browserOpens (serverList (constEnv linkedServer true (some netErr) none) []).trace = []) ∧
    ((serverInfo (constEnv linkedServer true (some netErr) none) ["srv-1"]).outcome
        = Outcome.returned (some netErr) ∧
      stdoutOf (serverInfo (constEnv linkedServer true (some netErr) none) ["srv-1"]).trace = [] ∧
      browserOpens (serverInfo (constEnv linkedServer true (some netErr) none) ["srv-1"]).trace = []) ∧
    ((startServer (constEnv linkedServer true (some netErr) none) ["srv-1"]).outcome
        = Outcome.returned (some netErr) ∧
      stdoutOf (startServer (constEnv linkedServer true (some netErr) none) ["srv-1"]).trace = [] ∧
      browserOpens (startServer (constEnv linkedServer true (some netErr) none) ["srv-1"]).trace = []) ∧
    ((stopServer (constEnv linkedServer true (some netErr) none) ["srv-1"]).outcome
        = Outcome.returned (some netErr) ∧
      stdoutOf (stopServer (constEnv linkedServer true (some netErr) none) ["srv-1"]).trace = [] ∧
      browserOpens (stopServer (constEnv linkedServer true (some netErr) none) ["srv-1"]).trace = []) ∧
    ((deleteServer (constEnv linkedServer true (some netErr) none) ["srv-1"]).outcome
        = Outcome.returned (some netErr) ∧
      stdoutOf (deleteServer (constEnv linkedServer true (some netErr) none) ["srv-1"]).trace = [] ∧
      browserOpens (deleteServer (constEnv linkedServer true (some netErr) none) ["srv-1"]).trace = []) ∧
    ((deployServer (constEnv linkedServer true (some netErr) none) (parseDeployFlags gpuCount4) ["gpu-box", "admin", "secret"]).outcome
        = Outcome.returned (some netErr) ∧
      stdoutOf (deployServer (constEnv linkedServer true (some netErr) none) (parseDeployFlags gpuCount4) ["gpu-box", "admin", "secret"]).trace = [] ∧
      browserOpens (deployServer (constEnv linkedServer true (some netErr) none) (parseDeployFlags gpuCount4) ["gpu-box", "admin", "secret"]).trace = []) ∧
    ((manageServer (constEnv linkedServer true (some netErr) none) ["srv-1"]).outcome
        = Outcome.returned (some netErr) ∧
      stdoutOf (manageServer (constEnv linkedServer true (some netErr) none) ["srv-1"]).trace = [] ∧
      browserOpens (manageServer (constEnv linkedServer true (some netErr) none) ["srv-1"]).trace = []) :=
  have h := client_error_propagates (constEnv linkedServer true (some netErr) none) netErr [] "srv-1" []
    gpuCount4 "gpu-box" "admin" "secret"
  ⟨h.1 rfl, h.2.1 rfl, h.2.2.1 rfl, h.2.2.2.1 rfl, h.2.2.2.2.1 rfl, h.2.2.2.2.2.1 rfl,
    h.2.2.2.2.2.2 rfl⟩

/-- C4: for a successful `GetServer` response (nil error, success=true),
`serverInfo` renders under the header (Property, Value) exactly 18 rows, one per
field of the server and always in the order ID, Name, Location, IP, Charged
Cost, Hour-On Cost, Minutes-On Cost, Hour-Off Cost, Minutes-Off Cost, CPU Model,
GPU Count, GPU Model, RAM, Status, Storage, Storage Class, Type, vCPUs. -/
theorem serverInfo_rows (env : Env) (server : String) (rest : List String)
    (hErr : (env.client.GetServer server).2 = none)
    (hOk : (env.client.GetServer server).1.Success = true) :
    ∃ rows : List Row,
      stdoutOf (serverInfo env (server :: rest)).trace
        = [Output.table [["Property", "Value"]] rows] ∧
      rows.length = 18 ∧
      rows.map (fun r => r.headD "") =
        ["ID", "Name", "Location", "IP", "Charged Cost", "Hour-On Cost", "Minutes-On Cost",
         "Hour-Off Cost", "Minutes-Off Cost", "CPU Model", "GPU Count", "GPU Model", "RAM",
         "Status", "Storage", "Storage Class", "Type", "vCPUs"] ∧
      rows =
        [ ["ID", (env.client.GetServer server).1.Server.Id],
          ["Name", (env.client.GetServer server).1.Server.Name],
          ["Location", (env.client.GetServer server).1.Server.Location],
          ["IP", (env.client.GetServer server).1.Server.Ip],
          ["Charged Cost", sprintfV (env.client.GetServer server).1.Server.Cost.Charged],
          ["Hour-On Cost", sprintfV (env.client.GetServer server).1.Server.Cost.HourOn],
          ["Minutes-On Cost", sprintfV (env.client.GetServer server).1.Server.Cost.MinutesOn],
          ["Hour-Off Cost", sprintfV (env.client.GetServer server).1.Server.Cost.HourOff],
          ["Minutes-Off Cost",
            sprintfV (env.client.GetServer server).1.Server.Cost.MinutesOff],
          ["CPU Model", (env.client.GetServer server).1.Server.CPUModel],
          ["GPU Count", Itoa (env.client.GetServer server).1.Server.GPUCount],
          ["GPU Model", (env.client.GetServer server).1.Server.GPUModel],
          ["RAM", sprintfVGB (env.client.GetServer server).1.Server.Ram],
          ["Status", (env.client.GetServer server).1.Server.Status],
          ["Storage", sprintfVGB (env.client.GetServer server).1.Server.Storage],
          ["Storage Class", (env.client.GetServer server).1.Server.StorageClass],
          ["Type", (env.client.GetServer server).1.Server.Type_],
          ["vCPUs", Itoa (env.client.GetServer server).1.Server.VCPUs] ] := by
  refine ⟨_, ?_, ?_, ?_, rfl⟩
  · rw [serverInfo_run]
    simp [hErr, hOk, stdoutOf, Event.stdout, serverInfoProps, GoMap.index, List.lookup]
  · rfl
  · rfl

theorem serverInfo_rows_witness :
    ∃ rows : List Row,
      stdoutOf (serverInfo (constEnv plainServer true none none) ["srv-1"]).trace
        = [Output.table [["Property", "Value"]] rows] ∧
      rows.length = 18 ∧
      rows.map (fun r => r.headD "") =
        ["ID", "Name", "Location", "IP", "Charged Cost", "Hour-On Cost", "Minutes-On Cost",
         "Hour-Off Cost", "Minutes-Off Cost", "CPU Model", "GPU Count", "GPU Model", "RAM",
         "Status", "Storage", "Storage Class", "Type", "vCPUs"] ∧
      rows =
        [ ["ID", "srv-1"], ["Name", "gpu-box"], ["Location", "na-us-las-1"],
          ["IP", "10.0.0.7"], ["Charged Cost", "0.12"], ["Hour-On Cost", "0.5"],
          ["Minutes-On Cost", "0.01"], ["Hour-Off Cost", "0.1"],
          ["Minutes-Off Cost", "0.002"], ["CPU Model", "Xeon"], ["GPU Count", "1"],
          ["GPU Model", "A40"], ["RAM", "2GB"], ["Status", "running"], ["Storage", "20GB"],
          ["Storage Class", "st1"], ["Type", "gpu"], ["vCPUs", "1"] ] :=
  serverInfo_rows (constEnv plainServer true none none) "srv-1" [] rfl rfl

/-- C5: for a successful `ListServers` response with servers s_1, ..., s_n (n may
be 0), `serverList` renders the header (Id, Name, Location, Status) followed by
exactly n rows, the i-th being (s_i.Id, s_i.Name, s_i.Location, s_i.Status), in
the order received. -/
theorem serverList_rows (env : Env) (args : List String)
    (hErr : env.client.ListServers.2 = none)
    (hOk : env.client.ListServers.1.Success = true) :
    stdoutOf (serverList env args).trace
      = [Output.table [["Id", "Name", "Location", "Status"]]
          (env.client.ListServers.1.Servers.map
            (fun s => [s.Id, s.Name, s.Location, s.Status]))] ∧
    (env.client.ListServers.1.Servers.map
      (fun s => [s.Id, s.Name, s.Location, s.Status])).length
        = env.client.ListServers.1.Servers.length := by
  constructor
  · rw [serverList_run]
    simp [hErr, hOk, stdoutOf, Event.stdout]
  · simp

theorem serverList_rows_witness :
    stdoutOf (serverList (constEnv plainServer true none none) []).trace
      = [Output.table [["Id", "Name", "Location", "Status"]]
          [["srv-2", "beta", "eu-1", "stopped"],
           ["srv-1", "alpha", "na-us-las-1", "running"]]] :=
  (serverList_rows (constEnv plainServer true none none) [] rfl rfl).1

/-- C6: for every name, adminUser, adminPass and every set of deploy flags given
on the command line, `deployServer` calls DeployServer with (adminUser,
adminPass, instanceType, gpuModel, gpuCount, vcpus, ram, storage, storageClass,
os, location, name) in that order, a given flag carrying its supplied value and
any other flag its default; with only gpuCount=4 given, gpuCount is 4 and the
rest are defaults. -/
theorem deploy_request (env : Env) (o : DeployOverrides)
    (name adminUser adminPass : String) :
    clientCalls (deployServer env (parseDeployFlags o) [name, adminUser, adminPass]).trace
      = [ClientCall.DeployServer adminUser adminPass (o.instanceType.getD "gpu")
          (o.gpuModel.getD "A40") (o.gpuCount.getD 1) (o.vcpus.getD 1) (o.ram.getD 2)
          (o.storage.getD 20) (o.storageClass.getD "st1") (o.os.getD "Ubuntu 18.04 LTS")
          (o.location.getD "na-us-las-1") name] ∧
    clientCalls
        (deployServer env (parseDeployFlags gpuCount4) [name, adminUser, adminPass]).trace
      = [ClientCall.DeployServer adminUser adminPass "gpu" "A40" 4 1 2 20 "st1"
          "Ubuntu 18.04 LTS" "na-us-las-1" name] ∧
    clientCalls
        (deployServer env (parseDeployFlags noOverrides) [name, adminUser, adminPass]).trace
      = [ClientCall.DeployServer adminUser adminPass "gpu" "A40" 1 1 2 20 "st1"
          "Ubuntu 18.04 LTS" "na-us-las-1" name] := by
  refine ⟨?_, ?_, ?_⟩ <;>
  · rw [deployServer_parse, deployCall_run]
    simp only [clientCalls, List.filterMap_cons, Event.clientCall]
    split <;> simp [Event.clientCall, gpuCount4, noOverrides]

/-- C7 fails as stated: for a successful response whose link map has no
"dashboard" key, and a launcher that reports no error, `manageServer` hands the
empty (((env.client.GetServer server).1.Server.Links.index [] "dashboard").index "" "href") to the launcher and returns nil. -/
theorem manage_missing_link_counterexample :
    ((constEnv plainServer true none none).client.GetServer "srv-1").2 = none ∧
    ((constEnv plainServer true none none).client.GetServer "srv-1").1.Success = true ∧
    ((constEnv plainServer true none none).client.GetServer "srv-1").1.Server.Links.lookup
      "dashboard" = none ∧
    (manageServer (constEnv plainServer true none none) ["srv-1"]).outcome
      = Outcome.returned none ∧
    browserOpens (manageServer (constEnv plainServer true none none) ["srv-1"]).trace
      = [""] := by
  decide

/-- C7, amended: for a successful `GetServer` response whose link map has no
"dashboard" key, or whose "dashboard" entry has no "href", `manageServer` asks
the browser launcher exactly once, for the empty (((env.client.GetServer server).1.Server.Links.index [] "dashboard").index "" "href"), and returns exactly what
the launcher returns (nil when the launcher reports no error). -/
theorem manage_missing_link (env : Env) (server : String) (rest : List String)
    (hErr : (env.client.GetServer server).2 = none)
    (hOk : (env.client.GetServer server).1.Success = true)
    (hLink : (env.client.GetServer server).1.Server.Links.lookup "dashboard" = none ∨
      ∃ d, (env.client.GetServer server).1.Server.Links.lookup "dashboard" = some d ∧
        d.lookup "href" = none) :
    browserOpens (manageServer env (server :: rest)).trace = [""] ∧
    (manageServer env (server :: rest)).outcome = Outcome.returned (env.OpenURL "") := by
  have hu : ((env.client.GetServer server).1.Server.Links.index [] "dashboard").index ""
      "href" = "" := by
    rcases hLink with h | ⟨d, h, hd⟩
    · simp [GoMap.index, h]
    · simp [GoMap.index, h, hd]
  rw [manageServer_run]
  simp [hErr, hOk, hu, browserOpens, Event.browserURL]

theorem manage_missing_link_witness :
    (browserOpens (manageServer (constEnv hreflessServer true none (some launchErr))
        ["srv-1"]).trace = [""] ∧
      (manageServer (constEnv hreflessServer true none (some launchErr)) ["srv-1"]).outcome
        = Outcome.returned (some launchErr)) ∧
    (browserOpens (manageServer (constEnv plainServer true none none) ["srv-1"]).trace
        = [""] ∧
      (manageServer (constEnv plainServer true none none) ["srv-1"]).outcome
        = Outcome.returned none) :=
  ⟨manage_missing_link (constEnv hreflessServer true none (some launchErr)) "srv-1" [] rfl rfl
      (Or.inr ⟨[("rel", "panel")], rfl, rfl⟩),
   manage_missing_link (constEnv plainServer true none none) "srv-1" [] rfl rfl
      (Or.inl rfl)⟩

/-- C8 fails as stated: (a) `startServer` returns nil for an envelope with
success=false; (b) `manageServer` returns nil when the dashboard link is missing
and the launcher reports no error; (c) `manageServer` returns a non-nil error
when the call succeeds, the link is present, and the launcher fails. -/
theorem exit_status_counterexample :
    (((constEnv linkedServer false none none).client.StartServer "srv-1").2 = none ∧
      ((constEnv linkedServer false none none).client.StartServer "srv-1").1.Success = false ∧
      (startServer (constEnv linkedServer false none none) ["srv-1"]).outcome
        = Outcome.returned none) ∧
    (((constEnv plainServer true none none).client.GetServer "srv-1").2 = none ∧
      ((constEnv plainServer true none none).client.GetServer "srv-1").1.Success = true ∧
      ((constEnv plainServer true none none).client.GetServer "srv-1").1.Server.Links.lookup
        "dashboard" = none ∧
      (manageServer (constEnv plainServer true none none) ["srv-1"]).outcome
        = Outcome.returned none) ∧
    (((constEnv linkedServer true none (some launchErr)).client.GetServer "srv-1").2 = none ∧
      ((constEnv linkedServer true none (some launchErr)).client.GetServer "srv-1").1.Success
        = true ∧
      ((constEnv linkedServer true none (some launchErr)).client.GetServer
        "srv-1").1.Server.Links.lookup "dashboard"
        = some [("href", "https://console.example/srv-1")] ∧
      (manageServer (constEnv linkedServer true none (some launchErr)) ["srv-1"]).outcome
        = Outcome.returned (some launchErr)) := by
  decide

/-- C8, amended: every handler returns a non-nil error when the client call
fails; `serverList` and `serverInfo` return a non-nil error exactly when the
call fails or the envelope has success=false; `startServer`, `stopServer`,
`deleteServer` and `deployServer` return nil when the call succeeds with
success=true; `manageServer`, when the call succeeds with success=true, returns
a non-nil error exactly when the browser launcher fails on
links["dashboard"]["href"] (the empty URL when the link is missing). -/
theorem exit_status (env : Env) (args : List String) (server : String) (rest : List String)
    (o : DeployOverrides) (name adminUser adminPass : String) :
    ((serverList env args).outcome.returnsError
      = (env.client.ListServers.2.isSome || !env.client.ListServers.1.Success)) ∧
    ((serverInfo env (server :: rest)).outcome.returnsError
      = ((env.client.GetServer server).2.isSome ||
          !(env.client.GetServer server).1.Success)) ∧
    (((env.client.StartServer server).2.isSome = true →
        (startServer env (server :: rest)).outcome.returnsError = true) ∧
      ((env.client.StartServer server).2 = none →
        (env.client.StartServer server).1.Success = true →
        (startServer env (server :: rest)).outcome.returnsError = false)) ∧
    (((env.client.StopServer server).2.isSome = true →
        (stopServer env (server :: rest)).outcome.returnsError = true) ∧
      ((env.client.StopServer server).2 = none →
        (env.client.StopServer server).1.Success = true →
        (stopServer env (server :: rest)).outcome.returnsError = false)) ∧
    (((env.client.DeleteServer server).2.isSome = true →
        (deleteServer env (server :: rest)).outcome.returnsError = true) ∧
      ((env.client.DeleteServer server).2 = none →
        (env.client.DeleteServer server).1.Success = true →
        (deleteServer env (server :: rest)).outcome.returnsError = false)) ∧
    (((env.client.DeployServer adminUser adminPass (o.instanceType.getD "gpu")
        (o.gpuModel.getD "A40") (o.gpuCount.getD 1) (o.vcpus.getD 1) (o.ram.getD 2)
        (o.storage.getD 20) (o.storageClass.getD "st1") (o.os.getD "Ubuntu 18.04 LTS")
        (o.location.getD "na-us-las-1") name).2.isSome = true →
        (deployServer env (parseDeployFlags o) [name, adminUser, adminPass]).outcome.returnsError = true) ∧
      ((env.client.DeployServer adminUser adminPass (o.instanceType.getD "gpu")
        (o.gpuModel.getD "A40") (o.gpuCount.getD 1) (o.vcpus.getD 1) (o.ram.getD 2)
        (o.storage.getD 20) (o.storageClass.getD "st1") (o.os.getD "Ubuntu 18.04 LTS")
        (o.location.getD "na-us-las-1") name).2 = none →
        (env.client.DeployServer adminUser adminPass (o.instanceType.getD "gpu")
        (o.gpuModel.getD "A40") (o.gpuCount.getD 1) (o.vcpus.getD 1) (o.ram.getD 2)
        (o.storage.getD 20) (o.storageClass.getD "st1") (o.os.getD "Ubuntu 18.04 LTS")
        (o.location.getD "na-us-las-1") name).1.Success = true →
        (deployServer env (parseDeployFlags o) [name, adminUser, adminPass]).outcome.returnsError = false)) ∧
    (((env.client.GetServer server).2.isSome = true →
        (manageServer env (server :: rest)).outcome.returnsError = true) ∧
      ((env.client.GetServer server).2 = none →
        (env.client.GetServer server).1.Success = true →
        (manageServer env (server :: rest)).outcome.returnsError
          = (env.OpenURL (((env.client.GetServer server).1.Server.Links.index [] "dashboard").index "" "href")).isSome)) := by
  refine ⟨?_, ?_, ⟨?_, ?_⟩, ⟨?_, ?_⟩, ⟨?_, ?_⟩, ⟨?_, ?_⟩, ⟨?_, ?_⟩⟩
  · rw [serverList_run]
    rcases env.client.ListServers with ⟨⟨ok, l⟩, _ | e⟩ <;> cases ok <;>
      simp [Outcome.returnsError]
  · rw [serverInfo_run]
    rcases env.client.GetServer server with ⟨⟨ok, l⟩, _ | e⟩ <;> cases ok <;>
      simp [Outcome.returnsError]
  · rw [startServer_run]
    rcases env.client.StartServer server with ⟨r, _ | e⟩ <;> simp [Outcome.returnsError]
  · intro h _
    rw [startServer_run]
    simp [h, Outcome.returnsError]
  · rw [stopServer_run]
    rcases env.client.StopServer server with ⟨r, _ | e⟩ <;> simp [Outcome.returnsError]
  · intro h _
    rw [stopServer_run]
    simp [h, Outcome.returnsError]
  · rw [deleteServer_run]
    rcases env.client.DeleteServer server with ⟨r, _ | e⟩ <;> simp [Outcome.returnsError]
  · intro h _
    rw [deleteServer_run]
    simp [h, Outcome.returnsError]
  · rw [deployServer_parse, deployCall_run]
    rcases (env.client.DeployServer adminUser adminPass (o.instanceType.getD "gpu")
        (o.gpuModel.getD "A40") (o.gpuCount.getD 1) (o.vcpus.getD 1) (o.ram.getD 2)
        (o.storage.getD 20) (o.storageClass.getD "st1") (o.os.getD "Ubuntu 18.04 LTS")
        (o.location.getD "na-us-las-1") name) with ⟨r, _ | e⟩ <;> simp [Outcome.returnsError]
  · intro h _
    rw [deployServer_parse, deployCall_run]
    simp [h, Outcome.returnsError]
  · rw [manageServer_run]
    rcases env.client.GetServer server with ⟨r, _ | e⟩ <;> simp [Outcome.returnsError]
  · intro h1 h2
    rw [manageServer_run]
    simp only [h1, h2, Option.isSome_none, Bool.false_eq_true, if_false]
    cases env.OpenURL (((env.client.GetServer server).1.Server.Links.index [] "dashboard").index "" "href") <;>
      simp [Outcome.returnsError]

theorem exit_status_witness :
    ((startServer (constEnv linkedServer true (some netErr) none) ["srv-1"]).outcome.returnsError = true ∧
      (stopServer (constEnv linkedServer true (some netErr) none) ["srv-1"]).outcome.returnsError = true ∧
      (deleteServer (constEnv linkedServer true (some netErr) none) ["srv-1"]).outcome.returnsError = true ∧
      (deployServer (constEnv linkedServer true (some netErr) none)
        (parseDeployFlags ram8vcpus2) ["gpu-box", "admin", "secret"]).outcome.returnsError = true ∧
      (manageServer (constEnv linkedServer true (some netErr) none) ["srv-1"]).outcome.returnsError = true) ∧
    ((startServer (constEnv linkedServer true none none) ["srv-1"]).outcome.returnsError = false ∧
      (stopServer (constEnv linkedServer true none none) ["srv-1"]).outcome.returnsError = false ∧
      (deleteServer (constEnv linkedServer true none none) ["srv-1"]).outcome.returnsError = false ∧
      (deployServer (constEnv linkedServer true none none)
        (parseDeployFlags ram8vcpus2) ["gpu-box", "admin", "secret"]).outcome.returnsError = false ∧
      (manageServer (constEnv linkedServer true none none) ["srv-1"]).outcome.returnsError = false) ∧
    (manageServer (constEnv linkedServer true none (some launchErr)) ["srv-1"]).outcome.returnsError = true :=
  have h1 := exit_status (constEnv linkedServer true (some netErr) none) [] "srv-1" []
    ram8vcpus2 "gpu-box" "admin" "secret"
  have h2 := exit_status (constEnv linkedServer true none none) [] "srv-1" []
    ram8vcpus2 "gpu-box" "admin" "secret"
  have h3 := exit_status (constEnv linkedServer true none (some launchErr)) [] "srv-1" []
    ram8vcpus2 "gpu-box" "admin" "secret"
  ⟨⟨h1.2.2.1.1 rfl, h1.2.2.2.1.1 rfl, h1.2.2.2.2.1.1 rfl, h1.2.2.2.2.2.1.1 rfl,
      h1.2.2.2.2.2.2.1 rfl⟩,
    ⟨h2.2.2.1.2 rfl rfl, h2.2.2.2.1.2 rfl rfl, h2.2.2.2.2.1.2 rfl rfl,
      h2.2.2.2.2.2.1.2 rfl rfl, h2.2.2.2.2.2.2.2 rfl rfl⟩,
    h3.2.2.2.2.2.2.2 rfl rfl⟩

/-- C9: `deployServer` writes to standard output exactly the id of the created
server followed by a newline, and nothing else, when the client call returns a
nil error with success=true, and only then; with an error or success=false it
writes nothing. -/
theorem deploy_stdout (env : Env) (o : DeployOverrides) (name adminUser adminPass : String) :
    stdoutOf (deployServer env (parseDeployFlags o) [name, adminUser, adminPass]).trace
      = (if (env.client.DeployServer adminUser adminPass (o.instanceType.getD "gpu")
        (o.gpuModel.getD "A40") (o.gpuCount.getD 1) (o.vcpus.getD 1) (o.ram.getD 2)
        (o.storage.getD 20) (o.storageClass.getD "st1") (o.os.getD "Ubuntu 18.04 LTS")
        (o.location.getD "na-us-las-1") name).2 = none ∧
            (env.client.DeployServer adminUser adminPass (o.instanceType.getD "gpu")
        (o.gpuModel.getD "A40") (o.gpuCount.getD 1) (o.vcpus.getD 1) (o.ram.getD 2)
        (o.storage.getD 20) (o.storageClass.getD "st1") (o.os.getD "Ubuntu 18.04 LTS")
        (o.location.getD "na-us-las-1") name).1.Success = true
          then [Output.text ((env.client.DeployServer adminUser adminPass (o.instanceType.getD "gpu")
        (o.gpuModel.getD "A40") (o.gpuCount.getD 1) (o.vcpus.getD 1) (o.ram.getD 2)
        (o.storage.getD 20) (o.storageClass.getD "st1") (o.os.getD "Ubuntu 18.04 LTS")
        (o.location.getD "na-us-las-1") name).1.Server.Id ++ "\n")]
          else []) ∧
    (stdoutOf (deployServer env (parseDeployFlags o) [name, adminUser, adminPass]).trace
        = [Output.text ((env.client.DeployServer adminUser adminPass (o.instanceType.getD "gpu")
        (o.gpuModel.getD "A40") (o.gpuCount.getD 1) (o.vcpus.getD 1) (o.ram.getD 2)
        (o.storage.getD 20) (o.storageClass.getD "st1") (o.os.getD "Ubuntu 18.04 LTS")
        (o.location.getD "na-us-las-1") name).1.Server.Id ++ "\n")]
      ↔ (env.client.DeployServer adminUser adminPass (o.instanceType.getD "gpu")
        (o.gpuModel.getD "A40") (o.gpuCount.getD 1) (o.vcpus.getD 1) (o.ram.getD 2)
        (o.storage.getD 20) (o.storageClass.getD "st1") (o.os.getD "Ubuntu 18.04 LTS")
        (o.location.getD "na-us-las-1") name).2 = none ∧
          (env.client.DeployServer adminUser adminPass (o.instanceType.getD "gpu")
        (o.gpuModel.getD "A40") (o.gpuCount.getD 1) (o.vcpus.getD 1) (o.ram.getD 2)
        (o.storage.getD 20) (o.storageClass.getD "st1") (o.os.getD "Ubuntu 18.04 LTS")
        (o.location.getD "na-us-las-1") name).1.Success = true) := by
  rw [deployServer_parse, deployCall_run]
  rcases (env.client.DeployServer adminUser adminPass (o.instanceType.getD "gpu")
        (o.gpuModel.getD "A40") (o.gpuCount.getD 1) (o.vcpus.getD 1) (o.ram.getD 2)
        (o.storage.getD 20) (o.storageClass.getD "st1") (o.os.getD "Ubuntu 18.04 LTS")
        (o.location.getD "na-us-las-1") name) with ⟨⟨ok, srv⟩, _ | e⟩ <;> cases ok <;>
    simp [stdoutOf, Event.stdout]

/-- C10: every handler makes exactly one client call on each run, the one its
subcommand names, with the first positional argument as the server id:
ListServers for list, GetServer for info and manage, StartServer for start,
StopServer for stop, DeleteServer for delete, DeployServer for deploy. -/
theorem one_client_call (env : Env) (args : List String) (server : String)
    (rest : List String) (o : DeployOverrides) (name adminUser adminPass : String) :
    clientCalls (serverList env args).trace = [ClientCall.ListServers] ∧
    clientCalls (serverInfo env (server :: rest)).trace = [ClientCall.GetServer server] ∧
    clientCalls (manageServer env (server :: rest)).trace = [ClientCall.GetServer server] ∧
    clientCalls (startServer env (server :: rest)).trace = [ClientCall.StartServer server] ∧
    clientCalls (stopServer env (server :: rest)).trace = [ClientCall.StopServer server] ∧
    clientCalls (deleteServer env (server :: rest)).trace
      = [ClientCall.DeleteServer server] ∧
    (∃ c, clientCalls (deployServer env (parseDeployFlags o) [name, adminUser, adminPass]).trace = [c] ∧
      c = ClientCall.DeployServer adminUser adminPass (o.instanceType.getD "gpu")
          (o.gpuModel.getD "A40") (o.gpuCount.getD 1) (o.vcpus.getD 1) (o.ram.getD 2)
          (o.storage.getD 20) (o.storageClass.getD "st1") (o.os.getD "Ubuntu 18.04 LTS")
          (o.location.getD "na-us-las-1") name) := by
  refine ⟨?_, ?_, ?_, ?_, ?_, ?_, _, ?_, rfl⟩
  · rw [serverList_run]
    split
    · rfl
    · split <;> rfl
  · rw [serverInfo_run]
    split
    · rfl
    · split <;> rfl
  · rw [manageServer_run]
    split
    · rfl
    · split <;> rfl
  · rw [startServer_run]
    rfl
  · rw [stopServer_run]
    rfl
  · rw [deleteServer_run]
    rfl
  · rw [deployServer_parse, deployCall_run]
    simp only [clientCalls, List.filterMap_cons, Event.clientCall]
    split <;> simp [Event.clientCall]

end Commands
